import Mathlib

/-!
Verification development for the MECAZON teacher server
(src/models/Product.js): a shallow embedding of the dynamic
connection/model registry (getConnection, getModel), the startup probe,
and the record-level operations used by the route handlers, with
theorems about caching, error propagation and concurrency.

Conventions of the embedding:
* JavaScript exceptions become `Except JsError`; the distinct throw
  sites of the source are distinguished by `JsError` constructors.
* The module-level mutable maps `connections` and `models` become the
  fields of an explicit `Registry` state threaded through every call.
* `uriMap`, `connections` and `models` are plain object literals, so a
  property read consults the prototype chain: a name absent from the
  own properties but present on `Object.prototype` (such as `toString`
  or `hasOwnProperty`) reads as a truthy inherited member, not as
  `undefined`. `jsGet` models this; `PropRead` is the result of a read.
  The `models` cache alone is read under keys of the form
  `dbName + "-" + collectionName`, which always contain a hyphen while
  no `Object.prototype` property name does (theorem
  `modelKey_notin_protoProps`), so its reads are modelled as plain own
  lookups.
* `mongoose.createConnection` is external I/O; each call to
  `getConnection` takes a `ConnectOutcome` oracle saying how the (at
  most one) establishment attempt that call can make would turn out.
* Connection handles are identified by the order in which they were
  constructed (`nextConnId` counter), so "identical instance" is
  equality of ids; a `getConnection` call can also return an inherited
  `Object.prototype` member instead of a Connection, which `ConnVal`
  distinguishes.
-/

namespace Mecazon

/-- Errors thrown by the server code, one constructor per distinct
throw site: `No URI mapped for database: ...` (src line 57), a rejected
`mongoose.createConnection` (line 64), `No schema defined for
collection: ...` (line 101), the JavaScript `ReferenceError` raised by
reading the undeclared variables `userSchema` / `employeeSchema`
(lines 95/98, imports commented out at lines 39-40), the `TypeError`
raised when `connection.model` (line 104) is called on an inherited
`Object.prototype` member instead of a Connection, and a mongoose
validation failure. -/
inductive JsError
  | unconfiguredDatabase (dbName : String)
  | connectionError (msg : String)
  | unknownCollection (collectionName : String)
  | referenceError (varName : String)
  | typeError (msg : String)
  | validationError (msg : String)
  deriving DecidableEq

/-- Own-property lookup in an association list, the model of the own
properties of a JavaScript object literal. -/
def lookupKey {κ α : Type} [DecidableEq κ] (k : κ) : List (κ × α) → Option α
  | [] => none
  | (k', v) :: rest => if k' = k then some v else lookupKey k rest

/-- The property names inherited by every object literal from
`Object.prototype` in Node: reading any of them on `uriMap` or
`connections` yields a truthy member (a function, or for `__proto__`
the `Object.prototype` object) rather than `undefined`. -/
def protoProps : List String :=
  ["constructor", "hasOwnProperty", "isPrototypeOf", "propertyIsEnumerable",
   "toLocaleString", "toString", "valueOf", "__defineGetter__",
   "__defineSetter__", "__lookupGetter__", "__lookupSetter__", "__proto__"]

/-- The result of a JavaScript property read on an object literal: the
value of an own property, a member inherited from `Object.prototype`
(identified by its name), or `undefined`. -/
inductive PropRead (α : Type)
  | ownVal (v : α)
  | inherited (name : String)
  | undefinedVal
  deriving DecidableEq

/-- A JavaScript property read on an object literal with the given own
properties: an own property shadows the prototype; otherwise an
`Object.prototype` property name reads as the inherited member, and any
other name reads as `undefined`. -/
def jsGet {α : Type} (own : List (String × α)) (k : String) : PropRead α :=
  match lookupKey k own with
  | some v => .ownVal v
  | none => if k ∈ protoProps then .inherited k else .undefinedVal

/-- JavaScript truthiness of a property read whose own values are
strings, as tested by `if (!uriMap[dbName])`: `undefined` and the empty
string are falsy; a non-empty string and every inherited member are
truthy. -/
def truthyStr : PropRead String → Bool
  | .ownVal s => if s = "" then false else true
  | .inherited _ => true
  | .undefinedVal => false

/-- The own properties of the static URI mapping (src lines 43-46),
parametrized by the two environment variables `MONGO_CLIENT_URI` and
`MONGO_SERVER_URI`; an unset variable (`none`) makes the property read
as `undefined`, which is what an absent own entry models (neither key
is an `Object.prototype` name, so no shadowing is lost). -/
def uriMap (clientURI serverURI : Option String) : List (String × String) :=
  (match clientURI with
   | some s => [("ProductsDB", s)]
   | none => []) ++
  (match serverURI with
   | some s => [("UsersEmployeesDB", s)]
   | none => [])

/-- The only schema value actually importable in the source: the
product schema (src line 38). -/
inductive SchemaV
  | productSchema
  deriving DecidableEq

/-- A model handle as produced by `connection.model(collectionName,
schema, collectionName)` (src line 104): bound to one connection and
one collection, carrying its schema. -/
structure ModelHandle where
  conn : Nat
  collection : String
  schema : SchemaV
  deriving DecidableEq

/-- The process-wide mutable state of the two registries: the own
entries of the `connections` cache, the own entries of the `models`
cache, the id of the next connection to be constructed, and a count of
connection-establishment attempts (each entered
`mongoose.createConnection` call). -/
structure Registry where
  connections : List (String × Nat)
  nextConnId : Nat
  connAttempts : Nat
  models : List (String × ModelHandle)
  deriving DecidableEq

/-- The registry state at process start: both caches empty. -/
def emptyRegistry : Registry := ⟨[], 0, 0, []⟩

/-- Outcome of one `mongoose.createConnection` attempt, supplied as an
oracle for the external transport. -/
inductive ConnectOutcome
  | success
  | failure (msg : String)
  deriving DecidableEq

/-- What `getConnection` returns: a Connection instance, or — for a
database name that is an `Object.prototype` property — the truthy
inherited member that `connections[dbName]` reads as. -/
inductive ConnVal
  | conn (id : Nat)
  | protoMember (name : String)
  deriving DecidableEq

/-- The `getConnection` function (src lines 53-75), sequentially: throw
`No URI mapped` when the `uriMap[dbName]` read is falsy — an inherited
`Object.prototype` member is truthy, so a name like `toString` passes
this check; then test `!connections[dbName]`: a truthy read (an own
cached Connection, or an inherited member) is returned as is with no
side effect, and only an `undefined` read attempts establishment — on
success the new Connection is stored under the database name and
returned, on rejection the error propagates with the cache untouched
(the assignment at line 64 never executes when the await rejects).
Inherited names are never assigned: their reads are truthy, so the
establishment branch is unreachable for them. -/
def getConnection (cu su : Option String) (outcome : ConnectOutcome)
    (dbName : String) (st : Registry) : Except JsError ConnVal × Registry :=
  if truthyStr (jsGet (uriMap cu su) dbName) then
    match jsGet st.connections dbName with
    | .ownVal c => (.ok (.conn c), st)
    | .inherited n => (.ok (.protoMember n), st)
    | .undefinedVal =>
      match outcome with
      | .failure msg =>
        (.error (.connectionError msg),
         { st with connAttempts := st.connAttempts + 1 })
      | .success =>
        (.ok (.conn st.nextConnId),
         { st with connections := (dbName, st.nextConnId) :: st.connections,
                   nextConnId := st.nextConnId + 1,
                   connAttempts := st.connAttempts + 1 })
  else
    (.error (.unconfiguredDatabase dbName), st)

/-- The composite cache key `${dbName}-${collectionName}` (src line 81). -/
def modelKey (dbName collectionName : String) : String :=
  dbName ++ "-" ++ collectionName

/-- The schema switch of `getModel` (src lines 90-102): `Products`
yields the imported product schema; `Users` and `Employees` read the
undeclared variables `userSchema` / `employeeSchema` and therefore
throw a `ReferenceError`; every other name falls to the default branch
throwing `No schema defined for collection: ...`. -/
def resolveSchema (collectionName : String) : Except JsError SchemaV :=
  if collectionName = "Products" then .ok .productSchema
  else if collectionName = "Users" then .error (.referenceError "userSchema")
  else if collectionName = "Employees" then .error (.referenceError "employeeSchema")
  else .error (.unknownCollection collectionName)

/-- The `getModel` function (src lines 78-111), sequentially: read the
models cache under the composite key — the key always contains a
hyphen, so the read never hits `Object.prototype` and is a plain own
lookup (theorem `modelKey_notin_protoProps`); on a hit return the
cached handle; otherwise resolve the connection first (propagating its
failure), then the schema, then call `connection.model` — a `TypeError`
if the connection value is an inherited `Object.prototype` member —
store the new handle under the key and return it. -/
def getModel (cu su : Option String) (outcome : ConnectOutcome)
    (dbName collectionName : String) (st : Registry) :
    Except JsError ModelHandle × Registry :=
  match lookupKey (modelKey dbName collectionName) st.models with
  | some m => (.ok m, st)
  | none =>
    match getConnection cu su outcome dbName st with
    | (.error e, st') => (.error e, st')
    | (.ok cv, st') =>
      match resolveSchema collectionName with
      | .error e => (.error e, st')
      | .ok sch =>
        match cv with
        | .conn cid =>
          (.ok ⟨cid, collectionName, sch⟩,
           { st' with models :=
              (modelKey dbName collectionName,
               (⟨cid, collectionName, sch⟩ : ModelHandle)) :: st'.models })
        | .protoMember _ =>
          (.error (.typeError "connection.model is not a function"), st')

/-- The per-database test collections of the startup probe
(src line 232). -/
def testCollections (dbName : String) : List String :=
  if dbName = "ProductsDB" then ["Products"] else ["Users", "Employees"]

/-- The databases probed before the server starts listening
(src line 226). -/
def testDatabases : List String := ["ProductsDB", "UsersEmployeesDB"]

/-- Inner loop of the startup probe (src lines 233-237): fetch the
model for each test collection in order, stopping at the first failure.
`estimatedDocumentCount` is external read-only I/O and is modelled as
always succeeding, which only strengthens failure results. -/
def probeCollections (cu su : Option String) (outcome : ConnectOutcome)
    (dbName : String) : List String → Registry → Except JsError Unit × Registry
  | [], st => (.ok (), st)
  | c :: cs, st =>
    match getModel cu su outcome dbName c st with
    | (.error e, st') => (.error e, st')
    | (.ok _, st') => probeCollections cu su outcome dbName cs st'

/-- The connection-test loop of `startServer` (src lines 226-238): for
each test database, get its connection, then probe its test
collections; the first failure aborts the loop (and `startServer`
then calls `process.exit(1)`, src line 245). -/
def startupProbe (cu su : Option String) (outcome : ConnectOutcome) :
    List String → Registry → Except JsError Unit × Registry
  | [], st => (.ok (), st)
  | db :: dbs, st =>
    match getConnection cu su outcome db st with
    | (.error e, st') => (.error e, st')
    | (.ok _, st') =>
      match probeCollections cu su outcome db (testCollections db) st' with
      | (.error e, st'') => (.error e, st'')
      | (.ok _, st'') => startupProbe cu su outcome dbs st''

/-- A concrete `MONGO_CLIENT_URI` environment value, used by witnesses. -/
def cu0 : Option String := some "mongodb://client"

/-- A concrete `MONGO_SERVER_URI` environment value, used by witnesses. -/
def su0 : Option String := some "mongodb://server"

deriving instance DecidableEq for Except

/-!
Interleaving model for concurrent `getConnection` calls on one
configured database name (a non-prototype name with a usable URI, such
as `ProductsDB`). JavaScript is single-threaded: an async function runs
atomically between `await` points. `getConnection` suspends exactly
once, at the `await mongoose.createConnection(...)` on line 64, and the
cache check at line 60 together with the start of the establishment is
one atomic step; the completing step writes the cache (line 64's
assignment) and returns the just-written value (line 74). A call is
therefore a three-phase machine, and a schedule interleaves the steps
of two calls for the same configured, initially uncached database name,
with every establishment succeeding.
-/

/-- Phase of one in-flight `getConnection` call for the fixed database
name: not yet started, suspended at the `await` with its own pending
connection `id`, or finished with a result. -/
inductive Phase
  | start
  | awaiting (id : Nat)
  | done (r : Except JsError Nat)
  deriving DecidableEq

/-- Global state of the race: the `connections[db]` cache slot, the
next connection id, how many establishments were begun, and the phase
of each of the two calls. -/
structure RaceState where
  cache : Option Nat
  nextId : Nat
  constructions : Nat
  a : Phase
  b : Phase
  deriving DecidableEq

/-- One atomic step of a single call: from `start`, a populated cache
resolves immediately (line 60 test false, line 74 return), an empty
cache begins an establishment and suspends; from `awaiting`, the
establishment completes, the cache is overwritten with this call's
connection and the call returns it. -/
def stepPhase (p : Phase) (cache : Option Nat) (nextId constructions : Nat) :
    Phase × Option Nat × Nat × Nat :=
  match p with
  | .start =>
    match cache with
    | some v => (.done (.ok v), cache, nextId, constructions)
    | none => (.awaiting nextId, cache, nextId + 1, constructions + 1)
  | .awaiting id => (.done (.ok id), some id, nextId, constructions)
  | .done r => (.done r, cache, nextId, constructions)

/-- Run one scheduler step: `true` steps call A, `false` steps call B. -/
def raceStep (s : RaceState) (pickA : Bool) : RaceState :=
  if pickA then
    match stepPhase s.a s.cache s.nextId s.constructions with
    | (p, c, n, k) => { s with a := p, cache := c, nextId := n, constructions := k }
  else
    match stepPhase s.b s.cache s.nextId s.constructions with
    | (p, c, n, k) => { s with b := p, cache := c, nextId := n, constructions := k }

/-- Run a whole schedule of steps. -/
def runRace : RaceState → List Bool → RaceState
  | s, [] => s
  | s, pick :: rest => runRace (raceStep s pick) rest

/-- Initial race state: empty cache, no constructions, both calls about
to start. -/
def initRace : RaceState := ⟨none, 0, 0, .start, .start⟩

/-!
Record-level model for the Products collection and the route handlers.
The persistence operations (`Model.create`, `Model.findByIdAndDelete`,
`Model.findByIdAndUpdate`) live in the external mongoose library, not
under src/, so they are modelled from the spec (§4.3), instantiated
with the structural contract that src does define: `productSchema`
(src lines 5-19). Record identities are abstracted to naturals
generated by an insertion counter.
-/

/-- A document for the Products collection: each field may be absent. -/
structure ProductDoc where
  name : Option String
  price : Option Int
  deriving DecidableEq

/-- Validation of a document against `productSchema` (src lines 5-19):
`name` required, `price` required with minimum 0. Modelled from the
spec: "validates `record` against the structural contract before
persisting; fails with `ValidationError` ... if any required field is
missing or violates a constraint (e.g., negative price)". The error
messages are the ones declared in the schema. -/
def validateProduct (d : ProductDoc) : Except JsError Unit :=
  match d.name with
  | none => .error (.validationError "Product name is required")
  | some _ =>
    match d.price with
    | none => .error (.validationError "Product price is required")
    | some p =>
      if p < 0 then .error (.validationError "Price cannot be negative")
      else .ok ()

/-- The state of one Products collection: stored documents keyed by
generated identity, plus the next identity to generate. -/
structure ProductCollection where
  docs : List (Nat × ProductDoc)
  nextId : Nat
  deriving DecidableEq

/-- Modelled from the spec: `insertOne(record) -> generated identity`
(§4.3), the semantics of `Model.create` at src line 143 — validate
against the structural contract, and only on success persist the
record under a fresh identity. -/
def createDoc (d : ProductDoc) (c : ProductCollection) :
    Except JsError Nat × ProductCollection :=
  match validateProduct d with
  | .error e => (.error e, c)
  | .ok _ => (.ok c.nextId, ⟨c.docs ++ [(c.nextId, d)], c.nextId + 1⟩)

/-- Modelled from the spec: `listAll()` (§4.3), the semantics of
`Model.find({})` at src line 124 — every stored record. -/
def listAll (c : ProductCollection) : List (Nat × ProductDoc) :=
  c.docs

/-- Modelled from the spec: `deleteById(identity) -> boolean found`
(§4.3), the semantics of `Model.findByIdAndDelete` at src line 174 —
`none` (JavaScript `null`, not an error) when no record has the
identity, otherwise the removed record. -/
def findByIdAndDelete (id : Nat) (c : ProductCollection) :
    Option ProductDoc × ProductCollection :=
  match lookupKey id c.docs with
  | none => (none, c)
  | some d => (some d, ⟨c.docs.filter (fun p => p.1 != id), c.nextId⟩)

/-- Partial update payload for `$set` (src line 198). -/
structure UpdateData where
  name : Option String
  price : Option Int
  deriving DecidableEq

/-- Merge an update into a document: present update fields overwrite,
absent ones keep the stored value. -/
def applyUpdate (u : UpdateData) (d : ProductDoc) : ProductDoc :=
  ⟨(u.name).orElse (fun _ => d.name), (u.price).orElse (fun _ => d.price)⟩

/-- Modelled from the spec: `updateById(identity, partialFields)`
(§4.3), the semantics of `Model.findByIdAndUpdate(id, {$set: update},
{new: true, runValidators: true})` at src lines 196-200 — `none` (not
an error) when the identity is absent; otherwise merge, re-validate,
and on success store and return the updated record. -/
def findByIdAndUpdate (id : Nat) (u : UpdateData) (c : ProductCollection) :
    Except JsError (Option ProductDoc) × ProductCollection :=
  match lookupKey id c.docs with
  | none => (.ok none, c)
  | some d =>
    let d' := applyUpdate u d
    match validateProduct d' with
    | .error e => (.error e, c)
    | .ok _ =>
      (.ok (some d'),
       ⟨c.docs.map (fun p => if p.1 = id then (id, d') else p), c.nextId⟩)

/-- The single-document branch of the POST /insert handler (src lines
141-148, catch at 162-165): 201 on success, 500 with the error message
when `Model.create` rejects. The returned number is the HTTP status. -/
def insertSingleHandler (d : ProductDoc) (c : ProductCollection) :
    Nat × ProductCollection :=
  match createDoc d c with
  | (.error _, c') => (500, c')
  | (.ok _, c') => (201, c')

/-- The DELETE /delete handler (src lines 169-183): 404 when
`findByIdAndDelete` returns null, 200 otherwise. -/
def deleteHandler (id : Nat) (c : ProductCollection) :
    Nat × ProductCollection :=
  match findByIdAndDelete id c with
  | (none, c') => (404, c')
  | (some _, c') => (200, c')

/-- The PUT /update handler (src lines 186-214): 400 when the body has
no `update` field, 500 when the update rejects (catch at 210-213), 404
when the document is not found, 200 otherwise. -/
def updateHandler (id : Nat) (upd : Option UpdateData) (c : ProductCollection) :
    Nat × ProductCollection :=
  match upd with
  | none => (400, c)
  | some u =>
    match findByIdAndUpdate id u c with
    | (.error _, c') => (500, c')
    | (.ok none, c') => (404, c')
    | (.ok (some _), c') => (200, c')

/-- A registry holding one established ProductsDB connection with id 0,
as left behind by a first successful `getConnection "ProductsDB"` on
the empty registry. Used by witnesses. -/
def reg1 : Registry := ⟨[("ProductsDB", 0)], 1, 1, []⟩

/-- A registry whose model cache holds the composite key
`ProductsDB-X-Y`, used to exhibit the cache-hit-before-validation
behavior of `getModel` on the colliding pair `("ProductsDB-X", "Y")`. -/
def regCollide : Registry :=
  ⟨[("ProductsDB", 0)], 1, 1, [("ProductsDB-X-Y", ⟨0, "X-Y", .productSchema⟩)]⟩

/-- A composite model key always contains a hyphen, and no property
name of `Object.prototype` does, so reads of the `models` cache never
hit the prototype chain: the plain own lookup in `getModel` is
faithful. -/
theorem modelKey_notin_protoProps (db coll : String) :
    modelKey db coll ∉ protoProps := by
  intro hmem
  have hdash : '-' ∈ (modelKey db coll).data := by
    unfold modelKey
    rw [String.data_append, String.data_append]
    simp
  simp only [protoProps, List.mem_cons, List.not_mem_nil, or_false] at hmem
  rcases hmem with h | h | h | h | h | h | h | h | h | h | h | h <;>
    rw [h] at hdash <;> exact absurd hdash (by decide)

/-- A name other than the two configured keys has no own entry in the
URI mapping, whatever the environment holds. -/
theorem uriMap_lookup_absent (cu su : Option String) (db : String)
    (h1 : db ≠ "ProductsDB") (h2 : db ≠ "UsersEmployeesDB") :
    lookupKey db (uriMap cu su) = none := by
  cases cu <;> cases su <;>
    simp [uriMap, lookupKey, Ne.symm h1, Ne.symm h2]

/-- A name with an own entry in the URI mapping is one of the two
configured keys. -/
theorem uriMap_lookup_configured (cu su : Option String) (db uri : String)
    (h : lookupKey db (uriMap cu su) = some uri) :
    db = "ProductsDB" ∨ db = "UsersEmployeesDB" := by
  by_contra hn
  push_neg at hn
  rw [uriMap_lookup_absent cu su db hn.1 hn.2] at h
  exact Option.noConfusion h

/-- The two behaviors of `getConnection` on a name absent from the URI
mapping, with no own connection entry: a non-prototype name reads as
`undefined`, fails the truthiness check and throws the
unconfigured-database error; an `Object.prototype` name reads as a
truthy inherited member in both `uriMap` and `connections`, so the call
silently returns that member. The state is unchanged either way. -/
theorem getConnection_absent_cases
    (cu su : Option String) (o : ConnectOutcome) (db : String) (st : Registry)
    (h1 : db ≠ "ProductsDB") (h2 : db ≠ "UsersEmployeesDB")
    (hc : lookupKey db st.connections = none) :
    (db ∉ protoProps →
      getConnection cu su o db st = (.error (.unconfiguredDatabase db), st)) ∧
    (db ∈ protoProps →
      getConnection cu su o db st = (.ok (.protoMember db), st)) := by
  have habs : lookupKey db (uriMap cu su) = none := uriMap_lookup_absent cu su db h1 h2
  constructor
  · intro hp
    have ht : truthyStr (jsGet (uriMap cu su) db) = false := by
      simp [jsGet, habs, hp, truthyStr]
    unfold getConnection
    rw [if_neg (by simp [ht])]
  · intro hp
    have ht : truthyStr (jsGet (uriMap cu su) db) = true := by
      simp [jsGet, habs, hp, truthyStr]
    have hjs : jsGet st.connections db = .inherited db := by
      simp [jsGet, hc, hp]
    unfold getConnection
    rw [if_pos ht, hjs]

/-- With a successful transport, `getConnection` on a database with an
own non-empty URI always succeeds with a real Connection, leaves the
model cache untouched, and leaves the returned connection in the
cache. -/
theorem getConnection_success_total
    (cu su : Option String) (db uri : String) (st : Registry)
    (hcfg : lookupKey db (uriMap cu su) = some uri) (hne : uri ≠ "") :
    ∃ c st', getConnection cu su .success db st = (.ok (.conn c), st') ∧
      lookupKey db st'.connections = some c ∧ st'.models = st.models := by
  have hp : db ∉ protoProps := by
    rcases uriMap_lookup_configured cu su db uri hcfg with h | h <;>
      subst h <;> decide
  have ht : truthyStr (jsGet (uriMap cu su) db) = true := by
    simp [jsGet, hcfg, truthyStr, hne]
  unfold getConnection
  rw [if_pos ht]
  cases hc : lookupKey db st.connections with
  | some c =>
    have hjs : jsGet st.connections db = .ownVal c := by simp [jsGet, hc]
    rw [hjs]
    exact ⟨c, st, rfl, hc, rfl⟩
  | none =>
    have hjs : jsGet st.connections db = .undefinedVal := by simp [jsGet, hc, hp]
    rw [hjs]
    exact ⟨st.nextConnId, _, rfl, by simp [lookupKey], rfl⟩

/-- C2: after a first successful `getConnection` call for a database
identity, a second sequential call with the same identity returns the
identical value — for a configured identity, the identical cached
Connection instance — and leaves the registry state completely
unchanged: no new connection attempt, no side effect, whatever the
transport oracle would answer on the second call. -/
theorem getConnection_idempotent_after_success
    (cu su : Option String) (o o' : ConnectOutcome) (db : String)
    (st st1 : Registry) (v : ConnVal)
    (h : getConnection cu su o db st = (.ok v, st1)) :
    getConnection cu su o' db st1 = (.ok v, st1) := by
  unfold getConnection at h ⊢
  by_cases ht : truthyStr (jsGet (uriMap cu su) db) = true
  · rw [if_pos ht] at h ⊢
    cases hjs : jsGet st.connections db with
    | ownVal c =>
      rw [hjs] at h
      obtain ⟨h1, h2⟩ := Prod.mk.injEq .. ▸ h
      cases h1
      subst h2
      rw [hjs]
    | inherited n =>
      rw [hjs] at h
      obtain ⟨h1, h2⟩ := Prod.mk.injEq .. ▸ h
      cases h1
      subst h2
      rw [hjs]
    | undefinedVal =>
      rw [hjs] at h
      cases o with
      | failure msg => simp at h
      | success =>
        obtain ⟨h1, h2⟩ := Prod.mk.injEq .. ▸ h
        cases h1
        subst h2
        simp [jsGet, lookupKey]
  · rw [if_neg ht] at h
    simp at h

/-- Witness for C2: on the empty registry, `getConnection` for
ProductsDB succeeds with connection 0 leaving state `reg1`, and the
second call returns the same connection 0 with state `reg1` unchanged. -/
theorem getConnection_idempotent_after_success_witness :
    getConnection cu0 su0 .success "ProductsDB" reg1 = (.ok (.conn 0), reg1) :=
  getConnection_idempotent_after_success cu0 su0 .success .success "ProductsDB"
    emptyRegistry reg1 (.conn 0) rfl

/-- Counterexample for C3: the identity `toString` is absent from the
static URI mapping, yet `getConnection` does not fail — the read
`uriMap['toString']` finds the truthy inherited
`Object.prototype.toString`, the check `!uriMap[dbName]` passes, and
the call silently returns the inherited member read from
`connections['toString']`. -/
theorem getConnection_unconfigured_counterexample :
    ("toString" : String) ≠ "ProductsDB" ∧
    ("toString" : String) ≠ "UsersEmployeesDB" ∧
    getConnection cu0 su0 .success "toString" emptyRegistry =
      (.ok (.protoMember "toString"), emptyRegistry) :=
  ⟨by decide, by decide, rfl⟩

/-- C3 amended: for a database identity absent from the static URI
mapping, with no own connection entry, `getConnection` leaves the
connection cache unchanged and: if the identity is not an
`Object.prototype` property name it fails with the
unconfigured-database error; if it is such a name (e.g. `toString`),
the truthy inherited member defeats the check and the call silently
returns that member instead of failing. -/
theorem getConnection_unconfigured_amended
    (cu su : Option String) (o : ConnectOutcome) (db : String) (st : Registry)
    (h1 : db ≠ "ProductsDB") (h2 : db ≠ "UsersEmployeesDB")
    (hc : lookupKey db st.connections = none) :
    (db ∉ protoProps →
      getConnection cu su o db st = (.error (.unconfiguredDatabase db), st)) ∧
    (db ∈ protoProps →
      getConnection cu su o db st = (.ok (.protoMember db), st)) :=
  getConnection_absent_cases cu su o db st h1 h2 hc

/-- Witness for C3 amended: `OtherDB` is neither configured nor an
`Object.prototype` name, so it fails with the unconfigured-database
error; `toString` is an `Object.prototype` name, so the call silently
succeeds with the inherited member; both leave the empty registry
unchanged. -/
theorem getConnection_unconfigured_amended_witness :
    getConnection cu0 su0 .success "OtherDB" emptyRegistry =
      (.error (.unconfiguredDatabase "OtherDB"), emptyRegistry) ∧
    getConnection cu0 su0 .success "toString" emptyRegistry =
      (.ok (.protoMember "toString"), emptyRegistry) :=
  ⟨(getConnection_unconfigured_amended cu0 su0 .success "OtherDB" emptyRegistry
      (by decide) (by decide) rfl).1 (by decide),
   (getConnection_unconfigured_amended cu0 su0 .success "toString" emptyRegistry
      (by decide) (by decide) rfl).2 (by decide)⟩

/-- C5: when establishment for a database with an own non-empty URI and
no cached connection fails, `getConnection` fails with the connection
error, the connection cache is left without an entry for that identity
(only the attempt counter moves — the failure is never cached), and a
subsequent call re-attempts establishment from scratch: it enters a
second attempt and, if the transport now succeeds, caches a fresh
connection. -/
theorem getConnection_failure_not_cached
    (cu su : Option String) (db uri msg : String) (st : Registry)
    (hcfg : lookupKey db (uriMap cu su) = some uri) (hne : uri ≠ "")
    (hc : lookupKey db st.connections = none) :
    getConnection cu su (.failure msg) db st =
      (.error (.connectionError msg),
       { st with connAttempts := st.connAttempts + 1 }) ∧
    ({ st with connAttempts := st.connAttempts + 1 } : Registry).connections
      = st.connections ∧
    lookupKey db
      ({ st with connAttempts := st.connAttempts + 1 } : Registry).connections
      = none ∧
    getConnection cu su .success db { st with connAttempts := st.connAttempts + 1 } =
      (.ok (.conn st.nextConnId),
       { st with connections := (db, st.nextConnId) :: st.connections,
                 nextConnId := st.nextConnId + 1,
                 connAttempts := st.connAttempts + 1 + 1 }) := by
  have hp : db ∉ protoProps := by
    rcases uriMap_lookup_configured cu su db uri hcfg with h | h <;>
      subst h <;> decide
  have ht : truthyStr (jsGet (uriMap cu su) db) = true := by
    simp [jsGet, hcfg, truthyStr, hne]
  have hjs : jsGet st.connections db = .undefinedVal := by simp [jsGet, hc, hp]
  refine ⟨?_, rfl, hc, ?_⟩
  · unfold getConnection
    rw [if_pos ht, hjs]
  · have hjs2 : jsGet
        ({ st with connAttempts := st.connAttempts + 1 } : Registry).connections
        db = .undefinedVal := hjs
    unfold getConnection
    rw [if_pos ht, hjs2]

/-- Witness for C5: on the empty registry a failing establishment for
ProductsDB reports the connection error and caches nothing, and the
retry succeeds with a fresh connection. -/
theorem getConnection_failure_not_cached_witness :
    getConnection cu0 su0 (.failure "ECONNREFUSED") "ProductsDB" emptyRegistry =
      (.error (.connectionError "ECONNREFUSED"), ⟨[], 0, 1, []⟩) ∧
    (⟨[], 0, 1, []⟩ : Registry).connections = ([] : List (String × Nat)) ∧
    lookupKey "ProductsDB" (⟨[], 0, 1, []⟩ : Registry).connections = none ∧
    getConnection cu0 su0 .success "ProductsDB" ⟨[], 0, 1, []⟩ =
      (.ok (.conn 0), ⟨[("ProductsDB", 0)], 1, 2, []⟩) :=
  getConnection_failure_not_cached cu0 su0 "ProductsDB" "mongodb://client"
    "ECONNREFUSED" emptyRegistry rfl (by decide) rfl

/-- Counterexample for C6: at the pair `("toString", "Widgets")` — the
database identity absent from the URI mapping, the collection name
unknown — `getModel` on the empty registry reports the
unknown-collection error, not the unconfigured-database error: the
`uriMap['toString']` read finds the truthy inherited member, so
`getConnection` does not fail, and the schema switch's default branch
throws `No schema defined for collection: Widgets`. -/
theorem getModel_unconfigured_before_schema_counterexample :
    ("toString" : String) ≠ "ProductsDB" ∧
    ("toString" : String) ≠ "UsersEmployeesDB" ∧
    getModel cu0 su0 .success "toString" "Widgets" emptyRegistry =
      (.error (.unknownCollection "Widgets"), emptyRegistry) :=
  ⟨by decide, by decide, rfl⟩

/-- C6 amended: on an uncached composite key, `getModel` resolves the
connection before the schema, so when the database identity is absent
from the URI mapping and has no own connection entry: if it is not an
`Object.prototype` property name, the call fails with the
unconfigured-database error propagated unchanged from `getConnection`,
whatever the collection name is; if it is such a name (e.g.
`toString`), the URI check passes and an unknown collection is instead
reported with the unknown-collection error. The state is returned
unchanged in both cases. -/
theorem getModel_unconfigured_before_schema_amended
    (cu su : Option String) (o : ConnectOutcome) (db coll : String)
    (st : Registry)
    (hm : lookupKey (modelKey db coll) st.models = none)
    (h1 : db ≠ "ProductsDB") (h2 : db ≠ "UsersEmployeesDB")
    (hc : lookupKey db st.connections = none) :
    (db ∉ protoProps →
      getModel cu su o db coll st = (.error (.unconfiguredDatabase db), st)) ∧
    (db ∈ protoProps → coll ≠ "Products" → coll ≠ "Users" → coll ≠ "Employees" →
      getModel cu su o db coll st = (.error (.unknownCollection coll), st)) := by
  constructor
  · intro hp
    have hgc := (getConnection_absent_cases cu su o db st h1 h2 hc).1 hp
    unfold getModel
    rw [hm, hgc]
  · intro hp hcoll1 hcoll2 hcoll3
    have hgc := (getConnection_absent_cases cu su o db st h1 h2 hc).2 hp
    have hrs : resolveSchema coll = .error (.unknownCollection coll) := by
      unfold resolveSchema
      rw [if_neg hcoll1, if_neg hcoll2, if_neg hcoll3]
    unfold getModel
    rw [hm, hgc, hrs]

/-- Witness for C6 amended: `NopeDB` (not an `Object.prototype` name)
with the unknown collection `Widgets` reports the unconfigured
database; `toString` with the same unknown collection reports the
unknown collection instead. -/
theorem getModel_unconfigured_before_schema_amended_witness :
    getModel cu0 su0 .success "NopeDB" "Widgets" emptyRegistry =
      (.error (.unconfiguredDatabase "NopeDB"), emptyRegistry) ∧
    getModel cu0 su0 .success "toString" "Widgets" emptyRegistry =
      (.error (.unknownCollection "Widgets"), emptyRegistry) :=
  ⟨(getModel_unconfigured_before_schema_amended cu0 su0 .success "NopeDB"
      "Widgets" emptyRegistry rfl (by decide) (by decide) rfl).1 (by decide),
   (getModel_unconfigured_before_schema_amended cu0 su0 .success "toString"
      "Widgets" emptyRegistry rfl (by decide) (by decide) rfl).2 (by decide)
      (by decide) (by decide) (by decide)⟩

/-- C4: for a collection name with no schema (none of Products, Users,
Employees), called on an uncached composite key with a configured
database identity (an own non-empty URI), `getModel` fails with the
unknown-collection error and leaves the model cache unchanged, while
the connection for that database is nevertheless present in the
connection cache after the failed call. -/
theorem getModel_unknownCollection
    (cu su : Option String) (db uri coll : String) (st : Registry)
    (hcfg : lookupKey db (uriMap cu su) = some uri) (hne : uri ≠ "")
    (hm : lookupKey (modelKey db coll) st.models = none)
    (h1 : coll ≠ "Products") (h2 : coll ≠ "Users") (h3 : coll ≠ "Employees") :
    (getModel cu su .success db coll st).1 = .error (.unknownCollection coll) ∧
    (getModel cu su .success db coll st).2.models = st.models ∧
    lookupKey db (getModel cu su .success db coll st).2.connections ≠ none := by
  obtain ⟨c, st', hgc, hlook, hmodels⟩ :=
    getConnection_success_total cu su db uri st hcfg hne
  have hrs : resolveSchema coll = .error (.unknownCollection coll) := by
    unfold resolveSchema
    rw [if_neg h1, if_neg h2, if_neg h3]
  unfold getModel
  rw [hm, hgc, hrs]
  exact ⟨rfl, hmodels, by rw [hlook]; exact fun hcon => Option.noConfusion hcon⟩

/-- Witness for C4: `Widgets` has no schema; on the empty registry with
ProductsDB configured, `getModel` reports the unknown collection, the
model cache stays empty, and the ProductsDB connection is cached. -/
theorem getModel_unknownCollection_witness :
    (getModel cu0 su0 .success "ProductsDB" "Widgets" emptyRegistry).1 =
      .error (.unknownCollection "Widgets") ∧
    (getModel cu0 su0 .success "ProductsDB" "Widgets" emptyRegistry).2.models = [] ∧
    lookupKey "ProductsDB"
      (getModel cu0 su0 .success "ProductsDB" "Widgets" emptyRegistry).2.connections
      ≠ none :=
  getModel_unknownCollection cu0 su0 "ProductsDB" "mongodb://client" "Widgets"
    emptyRegistry rfl (by decide) rfl (by decide) (by decide) (by decide)

/-- Counterexample for C7: the hyphen keys of the distinct pairs
`("ProductsDB", "X-Y")` and `("ProductsDB-X", "Y")` do collide, but the
claimed scenario does not occur: `getModel "ProductsDB" "X-Y"` on the
empty registry fails with the unknown-collection error and caches no
model, and the following `getModel "ProductsDB-X" "Y"` then fails with
the unconfigured-database error instead of succeeding from the cache. -/
theorem getModel_key_collision_unreachable :
    modelKey "ProductsDB" "X-Y" = modelKey "ProductsDB-X" "Y" ∧
    (getModel cu0 su0 .success "ProductsDB" "X-Y" emptyRegistry).1 =
      .error (.unknownCollection "X-Y") ∧
    (getModel cu0 su0 .success "ProductsDB" "X-Y" emptyRegistry).2.models = [] ∧
    (getModel cu0 su0 .success "ProductsDB-X" "Y"
        (getModel cu0 su0 .success "ProductsDB" "X-Y" emptyRegistry).2).1 =
      .error (.unconfiguredDatabase "ProductsDB-X") :=
  ⟨rfl, rfl, rfl, rfl⟩

/-- C7 amended: `getModel` does check the accessor cache before
validating the database identity — a cache hit under the composite key
is returned at once, with no lookup in the URI mapping — so a state
whose model cache holds a colliding key would let a call with an
unconfigured database identity succeed; the repository's own
operations, however, never cache such a key (see the counterexample:
the unknown collection of the first call fails before anything is
cached). -/
theorem getModel_cache_hit_skips_validation
    (cu su : Option String) (o : ConnectOutcome) (db coll : String)
    (st : Registry) (m : ModelHandle)
    (hc : lookupKey (modelKey db coll) st.models = some m) :
    getModel cu su o db coll st = (.ok m, st) := by
  unfold getModel
  rw [hc]

/-- Witness for C7 amended: on a registry whose model cache holds the
key `ProductsDB-X-Y`, the call `getModel "ProductsDB-X" "Y"` succeeds
with the cached handle although `ProductsDB-X` is unconfigured. -/
theorem getModel_cache_hit_skips_validation_witness :
    getModel cu0 su0 .success "ProductsDB-X" "Y" regCollide =
      (.ok ⟨0, "X-Y", .productSchema⟩, regCollide) :=
  getModel_cache_hit_skips_validation cu0 su0 .success "ProductsDB-X" "Y"
    regCollide ⟨0, "X-Y", .productSchema⟩ rfl

/-- C8: on an uncached key with a configured database identity (an own
non-empty URI) and a successful transport, `getModel` for `Users` and
for `Employees` always fails with the reference error for the
undeclared schema variable, and the startup probe over the test
databases therefore aborts with the `userSchema` reference error (so
`startServer` exits). -/
theorem getModel_users_employees_always_fail
    (cu su : Option String) (db uri : String) (st : Registry)
    (hcfg : lookupKey db (uriMap cu su) = some uri) (hne : uri ≠ "")
    (hu : lookupKey (modelKey db "Users") st.models = none)
    (he : lookupKey (modelKey db "Employees") st.models = none) :
    (getModel cu su .success db "Users" st).1 =
      .error (.referenceError "userSchema") ∧
    (getModel cu su .success db "Employees" st).1 =
      .error (.referenceError "employeeSchema") ∧
    (startupProbe cu0 su0 .success testDatabases emptyRegistry).1 =
      .error (.referenceError "userSchema") := by
  obtain ⟨c, st', hgc, hlook, hmodels⟩ :=
    getConnection_success_total cu su db uri st hcfg hne
  refine ⟨?_, ?_, rfl⟩
  · unfold getModel
    rw [hu, hgc]
    rfl
  · unfold getModel
    rw [he, hgc]
    rfl

/-- Witness for C8: on the empty registry with UsersEmployeesDB
configured, `getModel` for Users and Employees fail with the two
reference errors and the startup probe aborts with the `userSchema`
reference error. -/
theorem getModel_users_employees_always_fail_witness :
    (getModel cu0 su0 .success "UsersEmployeesDB" "Users" emptyRegistry).1 =
      .error (.referenceError "userSchema") ∧
    (getModel cu0 su0 .success "UsersEmployeesDB" "Employees" emptyRegistry).1 =
      .error (.referenceError "employeeSchema") ∧
    (startupProbe cu0 su0 .success testDatabases emptyRegistry).1 =
      .error (.referenceError "userSchema") :=
  getModel_users_employees_always_fail cu0 su0 "UsersEmployeesDB"
    "mongodb://server" emptyRegistry rfl (by decide) rfl rfl

/-- C9: inserting the record with name `Bad` and price `-1` fails with
the negative-price validation error, the collection is unchanged (the
record is not persisted), the POST handler answers 500, and a
subsequent `listAll` shows no new record. -/
theorem insertOne_invalid_rejected (c : ProductCollection) :
    createDoc ⟨some "Bad", some (-1)⟩ c =
      (.error (.validationError "Price cannot be negative"), c) ∧
    insertSingleHandler ⟨some "Bad", some (-1)⟩ c = (500, c) ∧
    listAll (createDoc ⟨some "Bad", some (-1)⟩ c).2 = listAll c :=
  ⟨rfl, rfl, rfl⟩

/-- C10: for an identity matching no record, `findByIdAndDelete`
returns a null result (found = false) and `findByIdAndUpdate` returns
a null (not-found) result, both as normal results rather than errors,
and the HTTP handlers map both to a 404 response with the collection
unchanged. -/
theorem notFound_is_normal_result
    (id : Nat) (u : UpdateData) (c : ProductCollection)
    (h : lookupKey id c.docs = none) :
    findByIdAndDelete id c = (none, c) ∧
    deleteHandler id c = (404, c) ∧
    findByIdAndUpdate id u c = (.ok none, c) ∧
    updateHandler id (some u) c = (404, c) := by
  have h1 : findByIdAndDelete id c = (none, c) := by
    unfold findByIdAndDelete
    rw [h]
  have h2 : findByIdAndUpdate id u c = (.ok none, c) := by
    unfold findByIdAndUpdate
    rw [h]
  refine ⟨h1, ?_, h2, ?_⟩
  · unfold deleteHandler
    rw [h1]
  · have hu : updateHandler id (some u) c =
        (match findByIdAndUpdate id u c with
         | (.error _, c') => (500, c')
         | (.ok none, c') => (404, c')
         | (.ok (some _), c') => (200, c')) := rfl
    rw [hu, h2]

/-- Witness for C10: identity 5 on the empty collection — delete and
update both report not-found normally and the handlers answer 404. -/
theorem notFound_is_normal_result_witness :
    findByIdAndDelete 5 ⟨[], 0⟩ = (none, (⟨[], 0⟩ : ProductCollection)) ∧
    deleteHandler 5 ⟨[], 0⟩ = (404, (⟨[], 0⟩ : ProductCollection)) ∧
    findByIdAndUpdate 5 ⟨none, some 5⟩ ⟨[], 0⟩ =
      (.ok none, (⟨[], 0⟩ : ProductCollection)) ∧
    updateHandler 5 (some ⟨none, some 5⟩) ⟨[], 0⟩ =
      (404, (⟨[], 0⟩ : ProductCollection)) :=
  notFound_is_normal_result 5 ⟨none, some 5⟩ ⟨[], 0⟩ rfl

/-- Counterexample for C1: in the interleaved schedule where both calls
pass the cache check before either establishment completes (A checks,
B checks, A completes, B completes), two connection constructions occur
for the single database identity, the two callers receive distinct
connection handles 0 and 1, and the cache ends up holding the later
one — refuting single-flight coalescing, equal handles, and at most one
Connection instance per identity. -/
theorem runRace_interleaved_double_construction :
    (runRace initRace [true, false, true, false]).constructions = 2 ∧
    (runRace initRace [true, false, true, false]).a = .done (.ok 0) ∧
    (runRace initRace [true, false, true, false]).b = .done (.ok 1) ∧
    (runRace initRace [true, false, true, false]).a ≠
      (runRace initRace [true, false, true, false]).b ∧
    (runRace initRace [true, false, true, false]).cache = some 1 :=
  ⟨rfl, rfl, rfl, by decide, rfl⟩

/-- C1 amended: concurrent `getConnection` calls for the same uncached
configured identity do not coalesce — the schedule in which both pass
the cache check before either establishment completes performs two
constructions and hands the callers distinct connections — and a single
construction shared by both callers is guaranteed only when the second
call starts after the first has completed. -/
theorem runRace_no_single_flight :
    (runRace initRace [true, false, true, false]).constructions = 2 ∧
    (runRace initRace [true, true, false]).constructions = 1 ∧
    (runRace initRace [true, true, false]).a = .done (.ok 0) ∧
    (runRace initRace [true, true, false]).b = .done (.ok 0) ∧
    (runRace initRace [true, true, false]).cache = some 0 :=
  ⟨rfl, rfl, rfl, rfl, rfl⟩

end Mecazon
